import Mathlib

/-
Verification of the load-balancer health-check synchronizer
(go-controller/pkg/node/healthcheck_service.go) and of the CNI request
server's validation contract, as a shallow embedding in Lean 4.

Go maps keyed by `ktypes.NamespacedName` are embedded as association
lists; `map[k] = v` becomes `insertT`, `delete(map, k)` becomes `eraseT`,
and `map[k]` / `_, ok := map[k]` become `lookupT`.  Go errors are embedded
as `Option String` (`none` = nil error) and error lists built for
`apierrors.NewAggregate` as `List String` (`[]` = nil aggregate).  The
external collaborators (the Object Cache's `GetEndpointSlices` and the
Health Server's `SyncServices`/`SyncEndpoints`) are parameters of every
operation, collected in `Env`.
-/

namespace OVNKube

/-- `ktypes.NamespacedName`: a (namespace, name) pair.  The field
`Namespace` is spelled `ns` because `namespace` is a Lean keyword. -/
structure NamespacedName where
  ns : String
  name : String
deriving DecidableEq

/-- `NamespacedName.String()` in k8s renders as `namespace + "/" + name`. -/
def NamespacedName.render (n : NamespacedName) : String :=
  n.ns ++ "/" ++ n.name

/-- The fields of `kapi.Service` read by healthcheck_service.go:
`Namespace`, `Name`, `Spec.HealthCheckNodePort` (an int32) and
`Spec.ExternalTrafficPolicy` (a string-typed enum). -/
structure Service where
  ns : String
  name : String
  healthCheckNodePort : Int
  externalTrafficPolicy : String
deriving DecidableEq

/-- `kapi.ServiceExternalTrafficPolicyTypeCluster`. -/
def serviceExternalTrafficPolicyTypeCluster : String := "Cluster"

/-- `kapi.ServiceExternalTrafficPolicyTypeLocal`. -/
def serviceExternalTrafficPolicyTypeLocal : String := "Local"

/-- A `discovery.Endpoint`: the owning node name (a nil-able pointer in
Go, hence `Option`), the per-endpoint condition flags, and the address
list.  The `serving` and `terminating` flags are carried but never read
by the local-ready count. -/
structure Endpoint where
  nodeName : Option String
  ready : Bool
  serving : Bool
  terminating : Bool
  addresses : List String
deriving DecidableEq

/-- A `discovery.EndpointSlice`: namespace, object name, the value of the
`discovery.LabelServiceName` label (`""` when the label is absent, as a
Go map lookup yields), and the endpoint list. -/
structure EndpointSlice where
  ns : String
  name : String
  serviceName : String
  endpoints : List Endpoint
deriving DecidableEq

/-- The external collaborators of the synchronizer, fixed for the
duration of one call: the Object Cache fetch
`watchFactory.GetEndpointSlices(namespace, svcName)` and the outcome the
Health Server gives to each pushed table (`none` = nil error). -/
structure Env where
  getEndpointSlices : String → String → Except String (List EndpointSlice)
  syncServicesRes : List (NamespacedName × Nat) → Option String
  syncEndpointsRes : List (NamespacedName × Nat) → Option String

/-- The `loadBalancerHealthChecker` state: node name and the two tables.
`services` holds the uint16 health-check port (a `Nat` < 2^16) and
`endpoints` the local-ready address count (Go `int`, only ever set to a
set cardinality, hence `Nat`). -/
structure LBHealthChecker where
  nodeName : String
  services : List (NamespacedName × Nat)
  endpoints : List (NamespacedName × Nat)
deriving DecidableEq

/-- Association-list lookup, embedding a Go map read. -/
def lookupT {α : Type} (m : List (NamespacedName × α)) (k : NamespacedName) : Option α :=
  match m with
  | [] => none
  | (k', v) :: rest => if k' = k then some v else lookupT rest k

/-- Association-list removal, embedding `delete(map, k)`. -/
def eraseT {α : Type} (m : List (NamespacedName × α)) (k : NamespacedName) :
    List (NamespacedName × α) :=
  match m with
  | [] => []
  | (k', v) :: rest => if k' = k then eraseT rest k else (k', v) :: eraseT rest k

/-- Association-list write, embedding `map[k] = v`. -/
def insertT {α : Type} (m : List (NamespacedName × α)) (k : NamespacedName) (v : α) :
    List (NamespacedName × α) :=
  (k, v) :: eraseT m k

theorem lookupT_eraseT {α : Type} (m : List (NamespacedName × α)) (k k' : NamespacedName) :
    lookupT (eraseT m k) k' = if k' = k then none else lookupT m k' := by
  induction m with
  | nil => simp [eraseT, lookupT]
  | cons p rest ih =>
    obtain ⟨a, v⟩ := p
    by_cases hak : a = k <;> by_cases hk' : a = k'
    · subst hak; subst hk'
      simp [eraseT, lookupT, ih]
    · subst hak
      have h2 : ¬ k' = a := fun h => hk' h.symm
      simp [eraseT, lookupT, ih, h2, hk']
    · subst hk'
      simp [eraseT, lookupT, hak, fun h : a = k => hak h]
    · simp [eraseT, lookupT, hak, hk', ih]

theorem lookupT_insertT {α : Type} (m : List (NamespacedName × α)) (k k' : NamespacedName)
    (v : α) :
    lookupT (insertT m k v) k' = if k' = k then some v else lookupT m k' := by
  by_cases h : k' = k
  · subst h
    simp [insertT, lookupT]
  · simp only [insertT, lookupT]
    rw [if_neg (fun hh => h hh.symm), lookupT_eraseT, if_neg h, if_neg h]

theorem mem_eraseT {α : Type} {m : List (NamespacedName × α)} {k : NamespacedName}
    {p : NamespacedName × α} (hp : p ∈ eraseT m k) : p ∈ m ∧ p.1 ≠ k := by
  induction m with
  | nil => simp [eraseT] at hp
  | cons q rest ih =>
    obtain ⟨a, v⟩ := q
    by_cases hak : a = k
    · simp only [eraseT, if_pos hak] at hp
      obtain ⟨h1, h2⟩ := ih hp
      exact ⟨List.mem_cons_of_mem _ h1, h2⟩
    · simp only [eraseT, if_neg hak] at hp
      rcases List.mem_cons.mp hp with h | h
      · subst h
        exact ⟨List.mem_cons_self _ _, hak⟩
      · obtain ⟨h1, h2⟩ := ih h
        exact ⟨List.mem_cons_of_mem _ h1, h2⟩

theorem eraseT_of_lookupT_none {α : Type} {m : List (NamespacedName × α)}
    {k : NamespacedName} (h : lookupT m k = none) : eraseT m k = m := by
  induction m with
  | nil => rfl
  | cons p rest ih =>
    obtain ⟨a, v⟩ := p
    simp only [lookupT] at h
    by_cases hak : a = k
    · simp [hak] at h
    · rw [if_neg hak] at h
      simp [eraseT, hak, ih h]

/-- Error-message builder for the Object Cache fetch failure in
`UpdateService`: `fmt.Errorf("could not fetch endpointslices for service
%s/%s during health check update service: %v", new.Namespace, new.Name,
err)`. -/
def fetchErrMsgUpdate (ns name underlying : String) : String :=
  ("could not fetch endpointslices for service " ++ (ns ++ "/" ++ name)) ++
    (" during health check update service: " ++ underlying)

/-- Error-message builder for the Object Cache fetch failure in
`SyncEndPointSlices`: `fmt.Errorf("could not fetch all endpointslices for
service %s during health check", namespacedName.String())`.  Note the
underlying error is not interpolated by the source. -/
def fetchErrMsgSync (n : NamespacedName) : String :=
  ("could not fetch all endpointslices for service " ++ n.render) ++
    " during health check"

/-- Error-message builder for a failed service-name extraction in
`SyncEndPointSlices`: `fmt.Errorf("skipping %s/%s: %v", ...)`. -/
def skipErrMsg (ns name underlying : String) : String :=
  "skipping " ++ ns ++ "/" ++ name ++ ": " ++ underlying

/-- Error-message builder for a failed extraction in `AddEndpointSlice`:
`fmt.Errorf("cannot add %s/%s to loadBalancerHealthChecker: %v", ...)`. -/
def cannotAddErrMsg (ns name underlying : String) : String :=
  "cannot add " ++ ns ++ "/" ++ name ++ " to loadBalancerHealthChecker: " ++ underlying

/-- Error-message builder for a failed extraction in
`UpdateEndpointSlice`: `fmt.Errorf("cannot update %s/%s in
loadBalancerHealthChecker: %v", ...)`. -/
def cannotUpdateErrMsg (ns name underlying : String) : String :=
  "cannot update " ++ ns ++ "/" ++ name ++ " in loadBalancerHealthChecker: " ++ underlying

/-- Modelled from the spec: `util.IsEndpointReady` (pkg/util, not under
src/).  The spec's local-ready count keys on the endpoint "whose
readiness flag is true (readiness, not the separate serving/terminating
flags)". -/
def IsEndpointReady (endpoint : Endpoint) : Bool :=
  endpoint.ready

/-- Modelled from the spec: `serviceNamespacedNameFromEndpointSlice`
(not under src/).  The spec says the handlers "resolve the owning
service's namespaced name from the slice's service-name label;
extraction failure is a local error".  A Go map lookup of an absent
label yields `""`, so the empty label is the failure case; otherwise the
result pairs the slice's namespace with the label value. -/
def serviceNamespacedNameFromEndpointSlice (epSlice : EndpointSlice) :
    Except String NamespacedName :=
  if epSlice.serviceName = "" then
    Except.error ("empty value for endpoint slice service label")
  else
    Except.ok { ns := epSlice.ns, name := epSlice.serviceName }

/-- `CountLocalReadyEndpointAddresses`: across all given endpoint
slices, insert into a string set the addresses of every endpoint whose
`NodeName` pointer is non-nil and equals the checker's node name and
which `util.IsEndpointReady` accepts; return the set's size
(`sets.NewString` is embedded as a `Finset String`). -/
def CountLocalReadyEndpointAddresses (nodeName : String)
    (endpointSlices : List EndpointSlice) : Nat :=
  (endpointSlices.foldl
    (fun localEndpointAddresses endpointSlice =>
      endpointSlice.endpoints.foldl
        (fun acc endpoint =>
          if IsEndpointReady endpoint ∧ endpoint.nodeName = some nodeName then
            acc ∪ endpoint.addresses.toFinset
          else acc)
        localEndpointAddresses)
    (∅ : Finset String)).card

/-- `AddService`: when `svc.Spec.HealthCheckNodePort != 0`, write the
port (converted to uint16, i.e. reduced mod 2^16) into the services
table under the service's namespaced name and push the services table;
otherwise a nil no-op. -/
def AddService (env : Env) (l : LBHealthChecker) (svc : Service) :
    LBHealthChecker × Option String :=
  if svc.healthCheckNodePort ≠ 0 then
    let name : NamespacedName := { ns := svc.ns, name := svc.name }
    let port := Int.toNat (svc.healthCheckNodePort % 65536)
    let l' := { l with services := insertT l.services name port }
    (l', env.syncServicesRes l'.services)
  else
    (l, none)

/-- `DeleteService`: when `svc.Spec.HealthCheckNodePort != 0`, remove
the service's entry from both tables and push the services table;
otherwise a nil no-op. -/
def DeleteService (env : Env) (l : LBHealthChecker) (svc : Service) :
    LBHealthChecker × Option String :=
  if svc.healthCheckNodePort ≠ 0 then
    let name : NamespacedName := { ns := svc.ns, name := svc.name }
    let l' := { l with services := eraseT l.services name,
                       endpoints := eraseT l.endpoints name }
    (l', env.syncServicesRes l'.services)
  else
    (l, none)

/-- The second `if` of `UpdateService` (the Local→Cluster transition):
delegate to `DeleteService(old)`, collecting its error, then return the
aggregate of the collected errors (`[]` embeds a nil aggregate). -/
def updateServiceLocalToCluster (env : Env) (l : LBHealthChecker)
    (oldSvc newSvc : Service) (errors : List String) :
    LBHealthChecker × List String :=
  if oldSvc.externalTrafficPolicy = serviceExternalTrafficPolicyTypeLocal ∧
      newSvc.externalTrafficPolicy = serviceExternalTrafficPolicyTypeCluster then
    match DeleteService env l oldSvc with
    | (l', some e) => (l', errors ++ [e])
    | (l', none) => (l', errors)
  else
    (l, errors)

/-- `UpdateService(old, new)`: on a Cluster→Local transition run
`AddService(new)` (collecting its error), fetch the service's endpoint
slices — on fetch failure append the wrapped error and return the
aggregate immediately — otherwise write the computed local-ready count
into the endpoints table, push the endpoints table (collecting its
error), and fall through to the Local→Cluster `if`; the function
returns `apierrors.NewAggregate` of the collected errors, embedded as
the plain error list. -/
def UpdateService (env : Env) (l : LBHealthChecker) (oldSvc newSvc : Service) :
    LBHealthChecker × List String :=
  if oldSvc.externalTrafficPolicy = serviceExternalTrafficPolicyTypeCluster ∧
      newSvc.externalTrafficPolicy = serviceExternalTrafficPolicyTypeLocal then
    let (l1, addErr) := AddService env l newSvc
    let errors := match addErr with
      | some e => [e]
      | none => []
    match env.getEndpointSlices newSvc.ns newSvc.name with
    | Except.error e =>
        (l1, errors ++ [fetchErrMsgUpdate newSvc.ns newSvc.name e])
    | Except.ok epSlices =>
        let namespacedName : NamespacedName := { ns := newSvc.ns, name := newSvc.name }
        let cnt := CountLocalReadyEndpointAddresses l1.nodeName epSlices
        let l2 := { l1 with endpoints := insertT l1.endpoints namespacedName cnt }
        let errors := match env.syncEndpointsRes l2.endpoints with
          | some e => errors ++ [e]
          | none => errors
        updateServiceLocalToCluster env l2 oldSvc newSvc errors
  else
    updateServiceLocalToCluster env l oldSvc newSvc []

/-- `SyncEndPointSlices` (a helper run while the caller holds the
lock): resolve the owning service's namespaced name — failure is
returned as the "skipping" error — fetch all the service's endpoint
slices — failure is returned wrapped with the namespaced name, with no
table mutation — then delete the endpoints entry when the fetched slice
list is empty, or write the computed local-ready count otherwise, and
finally push the endpoints table, returning the push outcome. -/
def SyncEndPointSlices (env : Env) (l : LBHealthChecker) (epSlice : EndpointSlice) :
    LBHealthChecker × Option String :=
  match serviceNamespacedNameFromEndpointSlice epSlice with
  | Except.error e => (l, some (skipErrMsg epSlice.ns epSlice.name e))
  | Except.ok namespacedName =>
    match env.getEndpointSlices epSlice.ns epSlice.serviceName with
    | Except.error _ => (l, some (fetchErrMsgSync namespacedName))
    | Except.ok epSlices =>
      let localEndpointAddressCount := CountLocalReadyEndpointAddresses l.nodeName epSlices
      let l' :=
        if epSlices.length = 0 then
          { l with endpoints := eraseT l.endpoints namespacedName }
        else
          { l with endpoints := insertT l.endpoints namespacedName localEndpointAddressCount }
      (l', env.syncEndpointsRes l'.endpoints)

/-- `AddEndpointSlice`: resolve the owning service — failure is the
"cannot add" error — then, under the lock, run `SyncEndPointSlices`
only when the services table has an entry for the resolved name, and
return nil otherwise. -/
def AddEndpointSlice (env : Env) (l : LBHealthChecker) (epSlice : EndpointSlice) :
    LBHealthChecker × Option String :=
  match serviceNamespacedNameFromEndpointSlice epSlice with
  | Except.error e => (l, some (cannotAddErrMsg epSlice.ns epSlice.name e))
  | Except.ok namespacedName =>
    if (lookupT l.services namespacedName).isSome then
      SyncEndPointSlices env l epSlice
    else
      (l, none)

/-- `UpdateEndpointSlice`: like `AddEndpointSlice` but resolving from
the new slice and syncing the new slice. -/
def UpdateEndpointSlice (env : Env) (l : LBHealthChecker)
    (oldEpSlice newEpSlice : EndpointSlice) : LBHealthChecker × Option String :=
  match serviceNamespacedNameFromEndpointSlice newEpSlice with
  | Except.error e => (l, some (cannotUpdateErrMsg newEpSlice.ns newEpSlice.name e))
  | Except.ok namespacedName =>
    if (lookupT l.services namespacedName).isSome then
      SyncEndPointSlices env l newEpSlice
    else
      (l, none)

/-- `DeleteEndpointSlice`: under the lock, run `SyncEndPointSlices`
unconditionally — the source has no tracked-service filter here. -/
def DeleteEndpointSlice (env : Env) (l : LBHealthChecker) (epSlice : EndpointSlice) :
    LBHealthChecker × Option String :=
  SyncEndPointSlices env l epSlice

/-- One synchronizer operation together with its arguments, covering the
six callbacks registered with the Object Cache. -/
inductive Op where
  | addService (svc : Service)
  | updateService (oldSvc newSvc : Service)
  | deleteService (svc : Service)
  | addEndpointSlice (epSlice : EndpointSlice)
  | updateEndpointSlice (oldEpSlice newEpSlice : EndpointSlice)
  | deleteEndpointSlice (epSlice : EndpointSlice)
deriving DecidableEq

/-- The state reached after one synchronizer operation. -/
def applyOp (env : Env) (l : LBHealthChecker) : Op → LBHealthChecker
  | Op.addService svc => (AddService env l svc).1
  | Op.updateService oldSvc newSvc => (UpdateService env l oldSvc newSvc).1
  | Op.deleteService svc => (DeleteService env l svc).1
  | Op.addEndpointSlice epSlice => (AddEndpointSlice env l epSlice).1
  | Op.updateEndpointSlice oldEpSlice newEpSlice =>
      (UpdateEndpointSlice env l oldEpSlice newEpSlice).1
  | Op.deleteEndpointSlice epSlice => (DeleteEndpointSlice env l epSlice).1

/-- The observable concurrency-relevant events of one synchronizer
operation, in program order: acquiring/releasing the mutex, reading the
services table, mutating a table, pushing a table to the Health Server,
and calling back into the Object Cache. -/
inductive Event where
  | lock
  | unlock
  | readServices
  | writeServices
  | writeEndpoints
  | pushServices
  | pushEndpoints
  | fetch
deriving DecidableEq

/-- Event trace of `AddService`: under `HealthCheckNodePort != 0` it
locks (`defer Unlock`), writes the services table and pushes it before
the deferred unlock; otherwise it touches nothing. -/
def addServiceTrace (svc : Service) : List Event :=
  if svc.healthCheckNodePort ≠ 0 then
    [Event.lock, Event.writeServices, Event.pushServices, Event.unlock]
  else
    []

/-- Event trace of `DeleteService`: under `HealthCheckNodePort != 0` it
locks, deletes from both tables, pushes the services table, and
unlocks. -/
def deleteServiceTrace (svc : Service) : List Event :=
  if svc.healthCheckNodePort ≠ 0 then
    [Event.lock, Event.writeServices, Event.writeEndpoints,
     Event.pushServices, Event.unlock]
  else
    []

/-- Event trace of the `SyncEndPointSlices` helper (no locking of its
own): nothing on extraction failure; one Object Cache fetch, and when
it succeeds an endpoints-table write (insert or delete) followed by an
endpoints push. -/
def syncEndPointSlicesTrace (env : Env) (epSlice : EndpointSlice) : List Event :=
  match serviceNamespacedNameFromEndpointSlice epSlice with
  | Except.error _ => []
  | Except.ok _ =>
    Event.fetch ::
      (match env.getEndpointSlices epSlice.ns epSlice.serviceName with
       | Except.error _ => []
       | Except.ok _ => [Event.writeEndpoints, Event.pushEndpoints])

/-- Event trace of `AddEndpointSlice`: extraction happens before the
lock; then one lock section reading the services table and running the
sync only for a tracked service. -/
def addEndpointSliceTrace (env : Env) (l : LBHealthChecker)
    (epSlice : EndpointSlice) : List Event :=
  match serviceNamespacedNameFromEndpointSlice epSlice with
  | Except.error _ => []
  | Except.ok namespacedName =>
    [Event.lock, Event.readServices] ++
      (if (lookupT l.services namespacedName).isSome then
        syncEndPointSlicesTrace env epSlice
      else []) ++ [Event.unlock]

/-- Event trace of `UpdateEndpointSlice` (resolves and syncs the new
slice). -/
def updateEndpointSliceTrace (env : Env) (l : LBHealthChecker)
    (newEpSlice : EndpointSlice) : List Event :=
  match serviceNamespacedNameFromEndpointSlice newEpSlice with
  | Except.error _ => []
  | Except.ok namespacedName =>
    [Event.lock, Event.readServices] ++
      (if (lookupT l.services namespacedName).isSome then
        syncEndPointSlicesTrace env newEpSlice
      else []) ++ [Event.unlock]

/-- Event trace of `DeleteEndpointSlice`: one lock section around an
unconditional sync. -/
def deleteEndpointSliceTrace (env : Env) (epSlice : EndpointSlice) : List Event :=
  [Event.lock] ++ syncEndPointSlicesTrace env epSlice ++ [Event.unlock]

/-- Event trace of the second `if` of `UpdateService` (the
Local→Cluster transition). -/
def updateServiceLocalToClusterTrace (oldSvc newSvc : Service) : List Event :=
  if oldSvc.externalTrafficPolicy = serviceExternalTrafficPolicyTypeLocal ∧
      newSvc.externalTrafficPolicy = serviceExternalTrafficPolicyTypeCluster then
    deleteServiceTrace oldSvc
  else
    []

/-- Event trace of `UpdateService`: on Cluster→Local, the `AddService`
sub-call (with its own lock section), then the Object Cache fetch with
no lock held; on fetch failure the function returns there, otherwise a
second lock section writes and pushes the endpoints table, and control
falls through to the Local→Cluster `if`. -/
def updateServiceTrace (env : Env) (oldSvc newSvc : Service) : List Event :=
  if oldSvc.externalTrafficPolicy = serviceExternalTrafficPolicyTypeCluster ∧
      newSvc.externalTrafficPolicy = serviceExternalTrafficPolicyTypeLocal then
    addServiceTrace newSvc ++ [Event.fetch] ++
      (match env.getEndpointSlices newSvc.ns newSvc.name with
       | Except.error _ => []
       | Except.ok _ =>
         [Event.lock, Event.writeEndpoints, Event.pushEndpoints, Event.unlock] ++
           updateServiceLocalToClusterTrace oldSvc newSvc)
  else
    updateServiceLocalToClusterTrace oldSvc newSvc

/-- Event trace of one synchronizer operation. -/
def opTrace (env : Env) (l : LBHealthChecker) : Op → List Event
  | Op.addService svc => addServiceTrace svc
  | Op.updateService oldSvc newSvc => updateServiceTrace env oldSvc newSvc
  | Op.deleteService svc => deleteServiceTrace svc
  | Op.addEndpointSlice epSlice => addEndpointSliceTrace env l epSlice
  | Op.updateEndpointSlice _ newEpSlice => updateEndpointSliceTrace env l newEpSlice
  | Op.deleteEndpointSlice epSlice => deleteEndpointSliceTrace env epSlice

/-- Number of lock acquisitions in a trace. -/
def lockCount (t : List Event) : Nat :=
  t.count Event.lock

/-- Checks, starting from mutex-hold depth `d`, that unlocks are
balanced and that every table read, table mutation, and Health Server
push happens while the mutex is held (the Object Cache fetch is
unconstrained). -/
def effectsLockedFrom : Nat → List Event → Bool
  | _, [] => true
  | d, Event.lock :: t => effectsLockedFrom (d + 1) t
  | d, Event.unlock :: t => decide (d ≠ 0) && effectsLockedFrom (d - 1) t
  | d, Event.fetch :: t => effectsLockedFrom d t
  | d, _ :: t => decide (d ≠ 0) && effectsLockedFrom d t

/-- Whether an operation is `UpdateService`. -/
def Op.isUpdateService : Op → Bool
  | Op.updateService _ _ => true
  | _ => false

/-- Lookup in an environment-style string map (a Go `map[string]string`
lookup returning presence). -/
def lookupEnv (m : List (String × String)) (k : String) : Option String :=
  match m with
  | [] => none
  | (k', v) :: rest => if k' = k then some v else lookupEnv rest k

/-- Modelled from the spec: the pod network lifecycle command, "enum:
Add, Delete, Update, Check" (cniserver.go is not under src/; only its
test is). -/
inductive CNICommand where
  | add
  | delete
  | update
  | check
deriving DecidableEq

/-- Modelled from the spec: the recognized wire values of the command
key, "ADD", "DEL", "UPDATE", "CHECK". -/
def parseCNICommand (s : String) : Option CNICommand :=
  if s = "ADD" then some CNICommand.add
  else if s = "DEL" then some CNICommand.delete
  else if s = "UPDATE" then some CNICommand.update
  else if s = "CHECK" then some CNICommand.check
  else none

/-- Modelled from the spec: the request body schema `{ "Env": {string:
string}, "Config": bytes }` read from one connection. -/
structure CNIRequest where
  env : List (String × String)
  config : String

/-- Modelled from the spec: a `PodRequest`, never constructed unless
all required-for-its-command fields are present and non-empty
(`netnsPath` may be empty only for Delete). -/
structure PodRequest where
  command : CNICommand
  containerID : String
  netnsPath : String
  podNamespace : String
  podName : String
  rawConfig : String
deriving DecidableEq

/-- Modelled from the spec: the arguments value is "a semicolon-delimited
list of `KEY=VALUE` pairs"; entries not of that shape contribute
nothing. -/
def parseCNIArgs (args : String) : List (String × String) :=
  (args.splitOn ";").filterMap (fun kv =>
    match kv.splitOn "=" with
    | [k, v] => some (k, v)
    | _ => none)

/-- Modelled from the spec: the Request Server's per-request
validation, "in order, each failure short-circuiting with a distinct,
stable error-message prefix": (1) command key present and recognized,
else "unexpected or missing CNI_COMMAND"; (2) container-ID key present
and non-empty, else a missing-container-id error; (3) network-namespace
key present for Add/Update/Check, else "missing CNI_NETNS"; (4) an
arguments key present whose `KEY=VALUE` list contains the pod namespace
and pod name keys, else "missing CNI_ARGS".  On success the
`PodRequest` is constructed from the validated fields. -/
def cniRequestToPodRequest (req : CNIRequest) : Except String PodRequest :=
  match (lookupEnv req.env "CNI_COMMAND").bind parseCNICommand with
  | none => Except.error "unexpected or missing CNI_COMMAND"
  | some cmd =>
    match lookupEnv req.env "CNI_CONTAINERID" with
    | none => Except.error "missing CNI_CONTAINERID"
    | some containerID =>
      if containerID = "" then Except.error "missing CNI_CONTAINERID"
      else
        match (if cmd = CNICommand.delete then
                 Except.ok ((lookupEnv req.env "CNI_NETNS").getD "")
               else
                 match lookupEnv req.env "CNI_NETNS" with
                 | none => Except.error "missing CNI_NETNS"
                 | some netns => Except.ok netns : Except String String) with
        | Except.error e => Except.error e
        | Except.ok netns =>
          match lookupEnv req.env "CNI_ARGS" with
          | none => Except.error "missing CNI_ARGS"
          | some args =>
            let kvs := parseCNIArgs args
            match lookupEnv kvs "K8S_POD_NAMESPACE", lookupEnv kvs "K8S_POD_NAME" with
            | some podNamespace, some podName =>
                Except.ok { command := cmd, containerID := containerID,
                            netnsPath := netns, podNamespace := podNamespace,
                            podName := podName, rawConfig := req.config }
            | _, _ => Except.error "missing CNI_ARGS"

/-- Modelled from the spec: the per-connection response — validation or
handler failure yields an HTTP-style 400 status whose body is the error
text; handler success yields 200 with the handler's raw result bytes. -/
def serveCNIRequest (handler : PodRequest → Except String String)
    (req : CNIRequest) : Nat × String :=
  match cniRequestToPodRequest req with
  | Except.error e => (400, e)
  | Except.ok podRequest =>
    match handler podRequest with
    | Except.error e => (400, e)
    | Except.ok body => (200, body)

/-- The endpoint filter of the local-ready count, as a Boolean
predicate: owning node reported and equal to the local node, and
accepted by `util.IsEndpointReady`. -/
def isLocalReady (nodeName : String) (endpoint : Endpoint) : Bool :=
  IsEndpointReady endpoint && decide (endpoint.nodeName = some nodeName)

theorem countLocalReady_inner (nodeName : String) (es : List Endpoint)
    (acc : Finset String) :
    es.foldl
      (fun acc endpoint =>
        if IsEndpointReady endpoint ∧ endpoint.nodeName = some nodeName then
          acc ∪ endpoint.addresses.toFinset
        else acc)
      acc
      = acc ∪ ((es.filter (isLocalReady nodeName)).flatMap Endpoint.addresses).toFinset := by
  induction es generalizing acc with
  | nil => simp
  | cons e es ih =>
    by_cases h : IsEndpointReady e ∧ e.nodeName = some nodeName
    · have hb : isLocalReady nodeName e = true := by
        simp [isLocalReady, h.1, h.2]
      simp [List.filter_cons, hb, h, ih, List.toFinset_append, Finset.union_assoc]
    · have hb : ¬ isLocalReady nodeName e = true := by
        simp only [isLocalReady, Bool.and_eq_true, decide_eq_true_eq]
        exact h
      simp only [List.foldl_cons, if_neg h, List.filter_cons]
      rw [if_neg hb]
      exact ih acc

theorem foldl_union_toFinset {α : Type} (g : α → List String) (xs : List α)
    (acc : Finset String) :
    xs.foldl (fun a x => a ∪ (g x).toFinset) acc = acc ∪ (xs.flatMap g).toFinset := by
  induction xs generalizing acc with
  | nil => simp
  | cons x xs ih =>
    simp [List.foldl_cons, ih, List.flatMap_cons, List.toFinset_append,
      Finset.union_assoc]

theorem countLocalReady_outer (nodeName : String) (slices : List EndpointSlice)
    (acc : Finset String) :
    slices.foldl
      (fun localEndpointAddresses endpointSlice =>
        endpointSlice.endpoints.foldl
          (fun acc endpoint =>
            if IsEndpointReady endpoint ∧ endpoint.nodeName = some nodeName then
              acc ∪ endpoint.addresses.toFinset
            else acc)
          localEndpointAddresses)
      acc
      = acc ∪ (slices.flatMap (fun sl =>
          (sl.endpoints.filter (isLocalReady nodeName)).flatMap Endpoint.addresses)).toFinset := by
  simp only [countLocalReady_inner]
  exact foldl_union_toFinset
    (fun sl => (sl.endpoints.filter (isLocalReady nodeName)).flatMap Endpoint.addresses)
    slices acc

/-- C3: `CountLocalReadyEndpointAddresses` returns the cardinality of
the set of distinct addresses collected from exactly those endpoint
entries whose reported owning node equals the checker's node name and
whose readiness flag is true; duplicates across slices count once, a
non-local or node-less endpoint contributes nothing, and a not-ready
endpoint contributes nothing regardless of its serving or terminating
flags (the filter never consults them). -/
theorem countLocalReadyEndpointAddresses_is_card_of_distinct_local_ready
    (nodeName : String) (slices : List EndpointSlice) :
    CountLocalReadyEndpointAddresses nodeName slices
      = (slices.flatMap (fun sl =>
          (sl.endpoints.filter (isLocalReady nodeName)).flatMap
            Endpoint.addresses)).toFinset.card := by
  unfold CountLocalReadyEndpointAddresses
  rw [countLocalReady_outer]
  simp

/-- A fixture environment: fetches succeed with no slices, pushes
succeed. -/
def envOk : Env :=
  { getEndpointSlices := fun _ _ => Except.ok [],
    syncServicesRes := fun _ => none,
    syncEndpointsRes := fun _ => none }

/-- A fixture endpoint slice owned by service `web` in namespace `ns`,
with no endpoints. -/
def slice0 : EndpointSlice :=
  { ns := "ns", name := "slice1", serviceName := "web", endpoints := [] }

/-- A fixture environment whose fetch returns `[slice0]` and whose
pushes succeed. -/
def envSlices : Env :=
  { getEndpointSlices := fun _ _ => Except.ok [slice0],
    syncServicesRes := fun _ => none,
    syncEndpointsRes := fun _ => none }

/-- A fixture environment whose fetch fails and whose pushes succeed. -/
def envFetchFail : Env :=
  { getEndpointSlices := fun _ _ => Except.error "cache down",
    syncServicesRes := fun _ => none,
    syncEndpointsRes := fun _ => none }

/-- A fixture environment where the fetch and both pushes fail. -/
def envAllFail : Env :=
  { getEndpointSlices := fun _ _ => Except.error "cache down",
    syncServicesRes := fun _ => some "sync services failed",
    syncEndpointsRes := fun _ => some "sync endpoints failed" }

/-- A fixture environment where fetches succeed with no slices but both
pushes fail. -/
def envPushFail : Env :=
  { getEndpointSlices := fun _ _ => Except.ok [],
    syncServicesRes := fun _ => some "sync services failed",
    syncEndpointsRes := fun _ => some "sync endpoints failed" }

/-- A fixture checker with empty tables. -/
def lbc0 : LBHealthChecker := { nodeName := "node1", services := [], endpoints := [] }

/-- A fixture checker tracking service `ns/web`. -/
def lbcTracked : LBHealthChecker :=
  { nodeName := "node1",
    services := [({ ns := "ns", name := "web" }, 80)],
    endpoints := [({ ns := "ns", name := "web" }, 2)] }

/-- A fixture service with externalTrafficPolicy=Cluster. -/
def svcCluster : Service :=
  { ns := "ns", name := "web", healthCheckNodePort := 8080,
    externalTrafficPolicy := "Cluster" }

/-- A fixture service with externalTrafficPolicy=Local. -/
def svcLocal : Service :=
  { ns := "ns", name := "web", healthCheckNodePort := 8080,
    externalTrafficPolicy := "Local" }

/-- A fixture Local service whose 32-bit health-check port value is
2^16. -/
def svcLocal65536 : Service :=
  { ns := "ns", name := "web", healthCheckNodePort := 65536,
    externalTrafficPolicy := "Local" }

theorem addService_frame (env : Env) (l : LBHealthChecker) (svc : Service) :
    (AddService env l svc).1.endpoints = l.endpoints ∧
    (AddService env l svc).1.nodeName = l.nodeName := by
  by_cases h : svc.healthCheckNodePort ≠ 0 <;> simp [AddService, h]

/-- C10: `AddService` stores the health-check port converted to uint16 —
the stored value equals the 32-bit port reduced mod 2^16 and is below
2^16 — while the tracked/untracked decision tests the unreduced port
against zero, so any service with a non-zero port gets an entry, even
when the reduction yields 0. -/
theorem addService_truncates_port_to_uint16 (env : Env) (l : LBHealthChecker)
    (svc : Service) (h : svc.healthCheckNodePort ≠ 0) :
    lookupT (AddService env l svc).1.services { ns := svc.ns, name := svc.name }
        = some (Int.toNat (svc.healthCheckNodePort % 65536))
      ∧ (Int.toNat (svc.healthCheckNodePort % 65536) : Int)
          = svc.healthCheckNodePort % 65536
      ∧ Int.toNat (svc.healthCheckNodePort % 65536) < 65536 := by
  refine ⟨?_, ?_, ?_⟩
  · simp [AddService, h, lookupT_insertT]
  · exact Int.toNat_of_nonneg (Int.emod_nonneg _ (by norm_num))
  · have hlt := Int.emod_lt_of_pos svc.healthCheckNodePort
      (b := 65536) (by norm_num)
    have hge := Int.emod_nonneg svc.healthCheckNodePort
      (b := 65536) (by norm_num)
    omega

/-- C10 witness: the port value 2^16 is non-zero, so the service is
tracked, and the recorded port is 0. -/
theorem addService_truncates_port_to_uint16_witness :
    (65536 : Int) ≠ 0 ∧
    lookupT (AddService envOk lbc0 svcLocal65536).1.services
        { ns := "ns", name := "web" } = some 0 := by
  refine ⟨by decide, ?_⟩
  have h := addService_truncates_port_to_uint16 envOk lbc0 svcLocal65536 (by decide)
  simpa using h.1

/-- C6 counterexample: for an untracked service with a non-zero
health-check port, `DeleteService` still runs the delete-and-push
branch, and when the Health Server rejects the push the call returns
that error rather than success — refuting the claim at
`envPushFail`/`lbc0`/`svcLocal`. -/
theorem deleteService_untracked_claim_counterexample :
    ¬ (∀ (env : Env) (l : LBHealthChecker) (svc : Service),
        lookupT l.services { ns := svc.ns, name := svc.name } = none →
        (DeleteService env l svc).2 = none ∧
        (DeleteService env l svc).1.services = l.services ∧
        (DeleteService env l svc).1.endpoints = l.endpoints) := by
  intro h
  have h2 := (h envPushFail lbc0 svcLocal (by decide)).1
  exact absurd h2 (by decide)

/-- C6 amended: `DeleteService` on an untracked service with no
endpoint entry leaves both tables unchanged; it returns success when
the service's health-check port is zero, and otherwise returns the
outcome of the Health Server services push it still performs. -/
theorem deleteService_untracked_amended (env : Env) (l : LBHealthChecker)
    (svc : Service)
    (hs : lookupT l.services { ns := svc.ns, name := svc.name } = none)
    (he : lookupT l.endpoints { ns := svc.ns, name := svc.name } = none) :
    (DeleteService env l svc).1.services = l.services ∧
    (DeleteService env l svc).1.endpoints = l.endpoints ∧
    (svc.healthCheckNodePort = 0 → (DeleteService env l svc).2 = none) ∧
    (svc.healthCheckNodePort ≠ 0 →
      (DeleteService env l svc).2 = env.syncServicesRes l.services) := by
  by_cases hp : svc.healthCheckNodePort = 0
  · simp [DeleteService, hp]
  · simp [DeleteService, hp, eraseT_of_lookupT_none hs, eraseT_of_lookupT_none he]

/-- C6 witness: the amended statement at the counterexample's input. -/
theorem deleteService_untracked_amended_witness :
    (DeleteService envPushFail lbc0 svcLocal).1.services = lbc0.services ∧
    (DeleteService envPushFail lbc0 svcLocal).1.endpoints = lbc0.endpoints ∧
    (DeleteService envPushFail lbc0 svcLocal).2
      = envPushFail.syncServicesRes lbc0.services := by
  have h := deleteService_untracked_amended envPushFail lbc0 svcLocal
    (by decide) (by decide)
  exact ⟨h.1, h.2.1, h.2.2.2 (by decide)⟩

/-- C7: in a sync for a tracked service, an empty fetched slice set
deletes the `EndpointHealthEntry` (no explicit zero is written: the
lookup afterwards is `none`), a non-empty one sets it to the computed
local-ready count, and in either case the full endpoints table is
pushed to the Health Server — the returned value is exactly the push's
outcome on the final table — with the push event present in the
trace. -/
theorem syncEndPointSlices_tracked (env : Env) (l : LBHealthChecker)
    (epSlice : EndpointSlice) (nn : NamespacedName) (eps : List EndpointSlice)
    (hext : serviceNamespacedNameFromEndpointSlice epSlice = Except.ok nn)
    (htracked : (lookupT l.services nn).isSome = true)
    (hfetch : env.getEndpointSlices epSlice.ns epSlice.serviceName = Except.ok eps) :
    (eps = [] →
      (SyncEndPointSlices env l epSlice).1.endpoints = eraseT l.endpoints nn ∧
      lookupT (SyncEndPointSlices env l epSlice).1.endpoints nn = none) ∧
    (eps ≠ [] →
      (SyncEndPointSlices env l epSlice).1.endpoints
        = insertT l.endpoints nn (CountLocalReadyEndpointAddresses l.nodeName eps)) ∧
    (SyncEndPointSlices env l epSlice).2
      = env.syncEndpointsRes (SyncEndPointSlices env l epSlice).1.endpoints ∧
    Event.pushEndpoints ∈ syncEndPointSlicesTrace env epSlice := by
  by_cases he : eps = []
  · subst he
    refine ⟨fun _ => ⟨?_, ?_⟩, fun hne => absurd rfl hne, ?_, ?_⟩
    · simp [SyncEndPointSlices, hext, hfetch]
    · simp [SyncEndPointSlices, hext, hfetch, lookupT_eraseT]
    · simp [SyncEndPointSlices, hext, hfetch]
    · simp [syncEndPointSlicesTrace, hext, hfetch]
  · have hlen : ¬ eps.length = 0 := by
      simpa [List.length_eq_zero] using he
    refine ⟨fun hee => absurd hee he, fun _ => ?_, ?_, ?_⟩
    · simp [SyncEndPointSlices, hext, hfetch, hlen]
    · simp [SyncEndPointSlices, hext, hfetch, hlen]
    · simp [syncEndPointSlicesTrace, hext, hfetch]

/-- C7 witness: a tracked service with a non-empty fetched slice list
gets the computed count written and the push outcome returned. -/
theorem syncEndPointSlices_tracked_witness :
    (SyncEndPointSlices envSlices lbcTracked slice0).1.endpoints
      = insertT lbcTracked.endpoints { ns := "ns", name := "web" }
          (CountLocalReadyEndpointAddresses lbcTracked.nodeName [slice0]) ∧
    (SyncEndPointSlices envSlices lbcTracked slice0).2
      = envSlices.syncEndpointsRes
          (SyncEndPointSlices envSlices lbcTracked slice0).1.endpoints := by
  have h := syncEndPointSlices_tracked envSlices lbcTracked slice0
    { ns := "ns", name := "web" } [slice0] (by rfl) (by decide) (by rfl)
  exact ⟨h.2.1 (by simp), h.2.2.1⟩

/-- C5: whenever the Object Cache fetch fails — in the Cluster→Local
branch of `UpdateService` or in an endpoint-slice sync — the operation
surfaces an error message wrapping the service's namespaced name
(exhibited as an explicit decomposition around `ns ++ "/" ++ name`),
and the endpoints table entry is left exactly as it was. -/
theorem fetch_failure_wraps_and_preserves :
    (∀ (env : Env) (l : LBHealthChecker) (oldSvc newSvc : Service) (u : String),
      oldSvc.externalTrafficPolicy = serviceExternalTrafficPolicyTypeCluster →
      newSvc.externalTrafficPolicy = serviceExternalTrafficPolicyTypeLocal →
      env.getEndpointSlices newSvc.ns newSvc.name = Except.error u →
      (UpdateService env l oldSvc newSvc).1.endpoints = l.endpoints ∧
      fetchErrMsgUpdate newSvc.ns newSvc.name u ∈ (UpdateService env l oldSvc newSvc).2 ∧
      ∃ s t, fetchErrMsgUpdate newSvc.ns newSvc.name u
          = s ++ (newSvc.ns ++ "/" ++ newSvc.name) ++ t) ∧
    (∀ (env : Env) (l : LBHealthChecker) (epSlice : EndpointSlice)
        (nn : NamespacedName) (u : String),
      serviceNamespacedNameFromEndpointSlice epSlice = Except.ok nn →
      env.getEndpointSlices epSlice.ns epSlice.serviceName = Except.error u →
      (SyncEndPointSlices env l epSlice).1 = l ∧
      (SyncEndPointSlices env l epSlice).2 = some (fetchErrMsgSync nn) ∧
      ∃ s t, fetchErrMsgSync nn = s ++ (nn.ns ++ "/" ++ nn.name) ++ t) := by
  constructor
  · intro env l oldSvc newSvc u h1 h2 hf
    rcases hAS : AddService env l newSvc with ⟨l1, e1⟩
    have hframe : l1.endpoints = l.endpoints := by
      have h := addService_frame env l newSvc
      rw [hAS] at h
      exact h.1
    refine ⟨?_, ?_, ⟨"could not fetch endpointslices for service ",
      " during health check update service: " ++ u, rfl⟩⟩
    · cases e1 <;> simp [UpdateService, h1, h2, hAS, hf, hframe]
    · cases e1 <;> simp [UpdateService, h1, h2, hAS, hf]
  · intro env l epSlice nn u hext hf
    refine ⟨?_, ?_, ⟨"could not fetch all endpointslices for service ",
      " during health check", rfl⟩⟩
    · simp [SyncEndPointSlices, hext, hf]
    · simp [SyncEndPointSlices, hext, hf]

/-- C5 witness: both fetch-failure paths at concrete inputs. -/
theorem fetch_failure_wraps_and_preserves_witness :
    (UpdateService envAllFail lbc0 svcCluster svcLocal).1.endpoints = lbc0.endpoints ∧
    (SyncEndPointSlices envFetchFail lbcTracked slice0).1 = lbcTracked ∧
    (SyncEndPointSlices envFetchFail lbcTracked slice0).2
      = some (fetchErrMsgSync { ns := "ns", name := "web" }) := by
  have h1 := (fetch_failure_wraps_and_preserves.1 envAllFail lbc0 svcCluster svcLocal
    "cache down" rfl rfl rfl).1
  have h2 := fetch_failure_wraps_and_preserves.2 envFetchFail lbcTracked slice0
    { ns := "ns", name := "web" } "cache down" (by rfl) rfl
  exact ⟨h1, h2.1, h2.2.1⟩

/-- C4: in the Cluster→Local branch of `UpdateService`, the AddService
error and the fetch/sync error are collected and returned together as
one aggregate: the fetch is attempted even though AddService already
failed, and when both fail the returned list carries both failures (and
likewise for a sync failure after a successful fetch). -/
theorem updateService_aggregates_errors (env : Env) (l : LBHealthChecker)
    (oldSvc newSvc : Service)
    (h1 : oldSvc.externalTrafficPolicy = serviceExternalTrafficPolicyTypeCluster)
    (h2 : newSvc.externalTrafficPolicy = serviceExternalTrafficPolicyTypeLocal) :
    (∀ e1 u, (AddService env l newSvc).2 = some e1 →
      env.getEndpointSlices newSvc.ns newSvc.name = Except.error u →
      (UpdateService env l oldSvc newSvc).2
        = [e1, fetchErrMsgUpdate newSvc.ns newSvc.name u]) ∧
    (∀ e1 e2 eps, (AddService env l newSvc).2 = some e1 →
      env.getEndpointSlices newSvc.ns newSvc.name = Except.ok eps →
      env.syncEndpointsRes (insertT (AddService env l newSvc).1.endpoints
          { ns := newSvc.ns, name := newSvc.name }
          (CountLocalReadyEndpointAddresses (AddService env l newSvc).1.nodeName eps))
        = some e2 →
      (UpdateService env l oldSvc newSvc).2 = [e1, e2]) := by
  constructor
  · intro e1 u hA hf
    rcases hAS : AddService env l newSvc with ⟨l1, ae⟩
    rw [hAS] at hA
    simp only at hA
    subst hA
    simp [UpdateService, h1, h2, hAS, hf]
  · intro e1 e2 eps hA hf hs
    rcases hAS : AddService env l newSvc with ⟨l1, ae⟩
    rw [hAS] at hA hs
    simp only at hA hs
    subst hA
    simp [UpdateService, updateServiceLocalToCluster, h1, h2, hAS, hf, hs,
      serviceExternalTrafficPolicyTypeCluster, serviceExternalTrafficPolicyTypeLocal]

/-- C4 witness: with a failing services push and a failing fetch, the
returned aggregate carries both failures. -/
theorem updateService_aggregates_errors_witness :
    (UpdateService envAllFail lbc0 svcCluster svcLocal).2
      = ["sync services failed", fetchErrMsgUpdate "ns" "web" "cache down"] := by
  have h := (updateService_aggregates_errors envAllFail lbc0 svcCluster svcLocal
    rfl rfl).1 "sync services failed" "cache down" (by decide) rfl
  exact h

/-- No push to the Health Server occurs in the trace. -/
def noHealthServerPush (t : List Event) : Prop :=
  Event.pushServices ∉ t ∧ Event.pushEndpoints ∉ t

/-- C2 counterexample: `DeleteEndpointSlice` has no tracked-service
filter — for the untracked service `ns/web` it runs the sync, mutates
the endpoints table (the fetched slice list is non-empty) and pushes,
refuting the claim that all three endpoint-slice events are no-ops for
untracked services. -/
theorem endpointSlice_event_untracked_noop_counterexample :
    ¬ (∀ (env : Env) (l : LBHealthChecker) (epSlice oldEpSlice : EndpointSlice)
        (nn : NamespacedName),
        serviceNamespacedNameFromEndpointSlice epSlice = Except.ok nn →
        lookupT l.services nn = none →
        (AddEndpointSlice env l epSlice = (l, none) ∧
          noHealthServerPush (addEndpointSliceTrace env l epSlice)) ∧
        (UpdateEndpointSlice env l oldEpSlice epSlice = (l, none) ∧
          noHealthServerPush (updateEndpointSliceTrace env l epSlice)) ∧
        (DeleteEndpointSlice env l epSlice = (l, none) ∧
          noHealthServerPush (deleteEndpointSliceTrace env epSlice))) := by
  intro h
  have h2 := (h envSlices lbc0 slice0 slice0 { ns := "ns", name := "web" }
    (by rfl) (by rfl)).2.2.1
  exact absurd h2 (by decide)

/-- C2 amended: for `AddEndpointSlice` and `UpdateEndpointSlice` an
event whose owning service is untracked is a no-op — success, state
unchanged, no Health Server push — while `DeleteEndpointSlice` runs the
sync unconditionally and so may mutate the endpoints table and push
even for an untracked service. -/
theorem addUpdateEndpointSlice_untracked_noop (env : Env) (l : LBHealthChecker)
    (epSlice oldEpSlice : EndpointSlice) (nn : NamespacedName)
    (hext : serviceNamespacedNameFromEndpointSlice epSlice = Except.ok nn)
    (huntracked : lookupT l.services nn = none) :
    AddEndpointSlice env l epSlice = (l, none) ∧
    noHealthServerPush (addEndpointSliceTrace env l epSlice) ∧
    UpdateEndpointSlice env l oldEpSlice epSlice = (l, none) ∧
    noHealthServerPush (updateEndpointSliceTrace env l epSlice) := by
  have hns : (lookupT l.services nn).isSome = false := by
    simp [huntracked]
  refine ⟨?_, ?_, ?_, ?_⟩
  · simp [AddEndpointSlice, hext, hns]
  · simp [addEndpointSliceTrace, hext, hns, noHealthServerPush]
  · simp [UpdateEndpointSlice, hext, hns]
  · simp [updateEndpointSliceTrace, hext, hns, noHealthServerPush]

/-- C2 witness: the amended no-op statement at the counterexample's
untracked service. -/
theorem addUpdateEndpointSlice_untracked_noop_witness :
    AddEndpointSlice envSlices lbc0 slice0 = (lbc0, none) ∧
    UpdateEndpointSlice envSlices lbc0 slice0 slice0 = (lbc0, none) := by
  have h := addUpdateEndpointSlice_untracked_noop envSlices lbc0 slice0 slice0
    { ns := "ns", name := "web" } (by rfl) (by rfl)
  exact ⟨h.1, h.2.2.1⟩

/-- The spec's table invariant: every key of the endpoints table is
also a key of the services table. -/
def endpointsCoveredByServices (l : LBHealthChecker) : Prop :=
  ∀ p ∈ l.endpoints, (lookupT l.services p.1).isSome = true

instance (l : LBHealthChecker) : Decidable (endpointsCoveredByServices l) := by
  unfold endpointsCoveredByServices
  infer_instance

/-- The side conditions under which the amended C1 invariant holds: for
`UpdateService` a Cluster→Local transition must carry a non-zero
health-check port, and for `DeleteEndpointSlice` the resolved service
must be tracked; the remaining operations need nothing. -/
def preservesSideCond (env : Env) (l : LBHealthChecker) : Op → Prop
  | Op.updateService oldSvc newSvc =>
      (oldSvc.externalTrafficPolicy = serviceExternalTrafficPolicyTypeCluster ∧
        newSvc.externalTrafficPolicy = serviceExternalTrafficPolicyTypeLocal) →
      newSvc.healthCheckNodePort ≠ 0
  | Op.deleteEndpointSlice epSlice =>
      ∀ nn, serviceNamespacedNameFromEndpointSlice epSlice = Except.ok nn →
        (lookupT l.services nn).isSome = true
  | _ => True

/-- C1 counterexample: starting from empty (trivially covered) tables,
`DeleteEndpointSlice` for the untracked service `ns/web` — whose fetch
returns one slice — creates an `EndpointHealthEntry` with no matching
`ServiceHealthEntry`. -/
theorem endpoints_subset_services_counterexample :
    ¬ (∀ (env : Env) (l : LBHealthChecker) (op : Op),
        endpointsCoveredByServices l →
        endpointsCoveredByServices (applyOp env l op)) := by
  intro h
  have h2 := h envSlices lbc0 (Op.deleteEndpointSlice slice0) (by decide)
  exact absurd (h2 ({ ns := "ns", name := "web" }, 0) (by decide)) (by decide)

theorem covered_insert_services {l : LBHealthChecker} {nn : NamespacedName} {v : Nat}
    (hcov : endpointsCoveredByServices l) :
    endpointsCoveredByServices { l with services := insertT l.services nn v } := by
  intro p hp
  simp only
  rw [lookupT_insertT]
  by_cases h : p.1 = nn
  · simp [h]
  · rw [if_neg h]
    exact hcov p hp

theorem covered_insert_endpoints_tracked {l : LBHealthChecker} {nn : NamespacedName}
    {c : Nat} (hcov : endpointsCoveredByServices l)
    (htr : (lookupT l.services nn).isSome = true) :
    endpointsCoveredByServices { l with endpoints := insertT l.endpoints nn c } := by
  intro p hp
  simp only [insertT] at hp
  rcases List.mem_cons.mp hp with h | h
  · subst h
    exact htr
  · exact hcov p (mem_eraseT h).1

theorem covered_erase_both {l : LBHealthChecker} {nn : NamespacedName}
    (hcov : endpointsCoveredByServices l) :
    endpointsCoveredByServices
      { l with services := eraseT l.services nn, endpoints := eraseT l.endpoints nn } := by
  intro p hp
  obtain ⟨hm, hne⟩ := mem_eraseT hp
  simp only
  rw [lookupT_eraseT, if_neg hne]
  exact hcov p hm

theorem covered_erase_endpoints {l : LBHealthChecker} {nn : NamespacedName}
    (hcov : endpointsCoveredByServices l) :
    endpointsCoveredByServices { l with endpoints := eraseT l.endpoints nn } := by
  intro p hp
  exact hcov p (mem_eraseT hp).1

theorem addService_covered (env : Env) (l : LBHealthChecker) (svc : Service)
    (hcov : endpointsCoveredByServices l) :
    endpointsCoveredByServices (AddService env l svc).1 := by
  by_cases h : svc.healthCheckNodePort ≠ 0
  · simp only [AddService, if_pos h]
    exact covered_insert_services hcov
  · simp only [AddService, if_neg h]
    exact hcov

theorem deleteService_covered (env : Env) (l : LBHealthChecker) (svc : Service)
    (hcov : endpointsCoveredByServices l) :
    endpointsCoveredByServices (DeleteService env l svc).1 := by
  by_cases h : svc.healthCheckNodePort ≠ 0
  · simp only [DeleteService, if_pos h]
    exact covered_erase_both hcov
  · simp only [DeleteService, if_neg h]
    exact hcov

theorem syncEndPointSlices_covered (env : Env) (l : LBHealthChecker)
    (epSlice : EndpointSlice) (hcov : endpointsCoveredByServices l)
    (htr : ∀ nn, serviceNamespacedNameFromEndpointSlice epSlice = Except.ok nn →
      (lookupT l.services nn).isSome = true) :
    endpointsCoveredByServices (SyncEndPointSlices env l epSlice).1 := by
  rcases hext : serviceNamespacedNameFromEndpointSlice epSlice with e | nn
  · simpa [SyncEndPointSlices, hext] using hcov
  · rcases hf : env.getEndpointSlices epSlice.ns epSlice.serviceName with u | eps
    · simpa [SyncEndPointSlices, hext, hf] using hcov
    · by_cases hlen : eps.length = 0
      · simp only [SyncEndPointSlices, hext, hf, if_pos hlen]
        exact covered_erase_endpoints hcov
      · simp only [SyncEndPointSlices, hext, hf, if_neg hlen]
        exact covered_insert_endpoints_tracked hcov (htr nn hext)

theorem addEndpointSlice_covered (env : Env) (l : LBHealthChecker)
    (epSlice : EndpointSlice) (hcov : endpointsCoveredByServices l) :
    endpointsCoveredByServices (AddEndpointSlice env l epSlice).1 := by
  rcases hext : serviceNamespacedNameFromEndpointSlice epSlice with e | nn
  · simpa [AddEndpointSlice, hext] using hcov
  · by_cases htr : (lookupT l.services nn).isSome = true
    · simp only [AddEndpointSlice, hext, if_pos htr]
      exact syncEndPointSlices_covered env l epSlice hcov
        (fun nn' h' => by rw [hext] at h'; cases h'; exact htr)
    · simp only [AddEndpointSlice, hext, if_neg htr]
      exact hcov

theorem updateEndpointSlice_covered (env : Env) (l : LBHealthChecker)
    (oldEpSlice newEpSlice : EndpointSlice) (hcov : endpointsCoveredByServices l) :
    endpointsCoveredByServices (UpdateEndpointSlice env l oldEpSlice newEpSlice).1 := by
  rcases hext : serviceNamespacedNameFromEndpointSlice newEpSlice with e | nn
  · simpa [UpdateEndpointSlice, hext] using hcov
  · by_cases htr : (lookupT l.services nn).isSome = true
    · simp only [UpdateEndpointSlice, hext, if_pos htr]
      exact syncEndPointSlices_covered env l newEpSlice hcov
        (fun nn' h' => by rw [hext] at h'; cases h'; exact htr)
    · simp only [UpdateEndpointSlice, hext, if_neg htr]
      exact hcov

theorem updateServiceLocalToCluster_covered (env : Env) (l : LBHealthChecker)
    (oldSvc newSvc : Service) (errs : List String)
    (hcov : endpointsCoveredByServices l) :
    endpointsCoveredByServices (updateServiceLocalToCluster env l oldSvc newSvc errs).1 := by
  unfold updateServiceLocalToCluster
  by_cases hc : oldSvc.externalTrafficPolicy = serviceExternalTrafficPolicyTypeLocal ∧
      newSvc.externalTrafficPolicy = serviceExternalTrafficPolicyTypeCluster
  · rw [if_pos hc]
    rcases hd : DeleteService env l oldSvc with ⟨l', e⟩
    have hcov' : endpointsCoveredByServices l' := by
      have h := deleteService_covered env l oldSvc hcov
      rw [hd] at h
      exact h
    cases e <;> simpa using hcov'
  · rw [if_neg hc]
    exact hcov

theorem updateService_covered (env : Env) (l : LBHealthChecker)
    (oldSvc newSvc : Service) (hcov : endpointsCoveredByServices l)
    (hside : (oldSvc.externalTrafficPolicy = serviceExternalTrafficPolicyTypeCluster ∧
        newSvc.externalTrafficPolicy = serviceExternalTrafficPolicyTypeLocal) →
      newSvc.healthCheckNodePort ≠ 0) :
    endpointsCoveredByServices (UpdateService env l oldSvc newSvc).1 := by
  by_cases hc : oldSvc.externalTrafficPolicy = serviceExternalTrafficPolicyTypeCluster ∧
      newSvc.externalTrafficPolicy = serviceExternalTrafficPolicyTypeLocal
  · have hp := hside hc
    have hdef : AddService env l newSvc = ({ l with services := insertT l.services { ns := newSvc.ns, name := newSvc.name } (Int.toNat (newSvc.healthCheckNodePort % 65536)) }, env.syncServicesRes (insertT l.services { ns := newSvc.ns, name := newSvc.name } (Int.toNat (newSvc.healthCheckNodePort % 65536)))) := by
      simp [AddService, hp]
    have hcov1 : endpointsCoveredByServices { l with services := insertT l.services { ns := newSvc.ns, name := newSvc.name } (Int.toNat (newSvc.healthCheckNodePort % 65536)) } :=
      covered_insert_services hcov
    have htr : (lookupT (insertT l.services { ns := newSvc.ns, name := newSvc.name } (Int.toNat (newSvc.healthCheckNodePort % 65536))) { ns := newSvc.ns, name := newSvc.name }).isSome = true := by
      rw [lookupT_insertT]
      simp
    unfold UpdateService
    rw [if_pos hc, hdef]
    rcases hf : env.getEndpointSlices newSvc.ns newSvc.name with u | eps
    · simpa [hf] using hcov1
    · simp only [hf]
      exact updateServiceLocalToCluster_covered env _ oldSvc newSvc _
        (covered_insert_endpoints_tracked hcov1 htr)
  · unfold UpdateService
    rw [if_neg hc]
    exact updateServiceLocalToCluster_covered env l oldSvc newSvc [] hcov

theorem deleteEndpointSlice_covered (env : Env) (l : LBHealthChecker)
    (epSlice : EndpointSlice) (hcov : endpointsCoveredByServices l)
    (htr : ∀ nn, serviceNamespacedNameFromEndpointSlice epSlice = Except.ok nn →
      (lookupT l.services nn).isSome = true) :
    endpointsCoveredByServices (DeleteEndpointSlice env l epSlice).1 :=
  syncEndPointSlices_covered env l epSlice hcov htr

/-- C1 amended: every synchronizer operation preserves the
endpoints-keys-are-service-keys invariant, except that `UpdateService`
needs the new service of a Cluster→Local transition to carry a non-zero
health-check port, and `DeleteEndpointSlice` needs the resolved service
to be tracked (the unconditional sync can otherwise create an orphan
endpoint entry). -/
theorem endpoints_subset_services_amended (env : Env) (l : LBHealthChecker) (op : Op)
    (hcov : endpointsCoveredByServices l)
    (hside : preservesSideCond env l op) :
    endpointsCoveredByServices (applyOp env l op) := by
  cases op with
  | addService svc => exact addService_covered env l svc hcov
  | updateService oldSvc newSvc => exact updateService_covered env l oldSvc newSvc hcov hside
  | deleteService svc => exact deleteService_covered env l svc hcov
  | addEndpointSlice epSlice => exact addEndpointSlice_covered env l epSlice hcov
  | updateEndpointSlice oldEpSlice newEpSlice =>
      exact updateEndpointSlice_covered env l oldEpSlice newEpSlice hcov
  | deleteEndpointSlice epSlice => exact deleteEndpointSlice_covered env l epSlice hcov hside

/-- C1 witness: a tracked service's `DeleteEndpointSlice` preserves the
invariant from a covered state. -/
theorem endpoints_subset_services_amended_witness :
    endpointsCoveredByServices
      (applyOp envSlices lbcTracked (Op.deleteEndpointSlice slice0)) := by
  apply endpoints_subset_services_amended
  · decide
  · intro nn h
    rw [show serviceNamespacedNameFromEndpointSlice slice0
        = Except.ok { ns := "ns", name := "web" } from rfl] at h
    cases h
    decide

theorem syncTrace_shapes (env : Env) (epSlice : EndpointSlice) :
    syncEndPointSlicesTrace env epSlice = [] ∨
    syncEndPointSlicesTrace env epSlice = [Event.fetch] ∨
    syncEndPointSlicesTrace env epSlice
      = [Event.fetch, Event.writeEndpoints, Event.pushEndpoints] := by
  rcases hext : serviceNamespacedNameFromEndpointSlice epSlice with e | nn
  · left
    simp [syncEndPointSlicesTrace, hext]
  · rcases hf : env.getEndpointSlices epSlice.ns epSlice.serviceName with u | eps
    · right; left
      simp [syncEndPointSlicesTrace, hext, hf]
    · right; right
      simp [syncEndPointSlicesTrace, hext, hf]

/-- C9 counterexample: on a Cluster→Local `UpdateService` the lock is
acquired twice — once inside the `AddService` sub-call and once around
the endpoint write and push — so the operation is not one continuous
lock acquisition. -/
theorem single_lock_acquisition_counterexample :
    ¬ (∀ (env : Env) (l : LBHealthChecker) (op : Op),
        lockCount (opTrace env l op) ≤ 1 ∧
        effectsLockedFrom 0 (opTrace env l op) = true) := by
  intro h
  exact absurd (h envOk lbc0 (Op.updateService svcCluster svcLocal)).1 (by decide)

/-- C9 amended: every operation performs all its table reads, table
mutations, and Health Server pushes while holding the lock (with
balanced acquisitions), and every operation except `UpdateService`
acquires the lock at most once; `UpdateService` acquires it at most
twice, with the Object Cache fetch of its Cluster→Local branch made
between the two acquisitions, outside the lock. -/
theorem lock_discipline_amended (env : Env) (l : LBHealthChecker) (op : Op) :
    effectsLockedFrom 0 (opTrace env l op) = true ∧
    lockCount (opTrace env l op) ≤ 2 ∧
    (op.isUpdateService = false → lockCount (opTrace env l op) ≤ 1) := by
  cases op with
  | addService svc =>
    by_cases h : svc.healthCheckNodePort ≠ 0
    · simp only [opTrace, addServiceTrace, if_pos h, Op.isUpdateService]
      decide
    · simp only [opTrace, addServiceTrace, if_neg h, Op.isUpdateService]
      decide
  | deleteService svc =>
    by_cases h : svc.healthCheckNodePort ≠ 0
    · simp only [opTrace, deleteServiceTrace, if_pos h, Op.isUpdateService]
      decide
    · simp only [opTrace, deleteServiceTrace, if_neg h, Op.isUpdateService]
      decide
  | addEndpointSlice epSlice =>
    rcases hext : serviceNamespacedNameFromEndpointSlice epSlice with e | nn
    · simp only [opTrace, addEndpointSliceTrace, hext, Op.isUpdateService]
      decide
    · by_cases htr : (lookupT l.services nn).isSome = true
      · rcases syncTrace_shapes env epSlice with hs | hs | hs <;>
          · simp only [opTrace, addEndpointSliceTrace, hext, if_pos htr, hs,
              Op.isUpdateService]
            decide
      · simp only [opTrace, addEndpointSliceTrace, hext, if_neg htr, Op.isUpdateService]
        decide
  | updateEndpointSlice oldEpSlice newEpSlice =>
    rcases hext : serviceNamespacedNameFromEndpointSlice newEpSlice with e | nn
    · simp only [opTrace, updateEndpointSliceTrace, hext, Op.isUpdateService]
      decide
    · by_cases htr : (lookupT l.services nn).isSome = true
      · rcases syncTrace_shapes env newEpSlice with hs | hs | hs <;>
          · simp only [opTrace, updateEndpointSliceTrace, hext, if_pos htr, hs,
              Op.isUpdateService]
            decide
      · simp only [opTrace, updateEndpointSliceTrace, hext, if_neg htr,
          Op.isUpdateService]
        decide
  | deleteEndpointSlice epSlice =>
    rcases syncTrace_shapes env epSlice with hs | hs | hs <;>
      · simp only [opTrace, deleteEndpointSliceTrace, hs, Op.isUpdateService]
        decide
  | updateService oldSvc newSvc =>
    by_cases hc1 : oldSvc.externalTrafficPolicy = serviceExternalTrafficPolicyTypeCluster ∧
        newSvc.externalTrafficPolicy = serviceExternalTrafficPolicyTypeLocal
    · have hc2 : ¬ (oldSvc.externalTrafficPolicy = serviceExternalTrafficPolicyTypeLocal ∧
          newSvc.externalTrafficPolicy = serviceExternalTrafficPolicyTypeCluster) := by
        intro h
        exact absurd (hc1.1.symm.trans h.1) (by decide)
      rcases hf : env.getEndpointSlices newSvc.ns newSvc.name with u | eps
      · by_cases hp : newSvc.healthCheckNodePort ≠ 0
        · simp only [opTrace, updateServiceTrace, if_pos hc1, addServiceTrace,
            if_pos hp, hf, Op.isUpdateService]
          decide
        · simp only [opTrace, updateServiceTrace, if_pos hc1, addServiceTrace,
            if_neg hp, hf, Op.isUpdateService]
          decide
      · by_cases hp : newSvc.healthCheckNodePort ≠ 0
        · simp only [opTrace, updateServiceTrace, if_pos hc1, addServiceTrace,
            if_pos hp, hf, updateServiceLocalToClusterTrace, if_neg hc2,
            Op.isUpdateService]
          decide
        · simp only [opTrace, updateServiceTrace, if_pos hc1, addServiceTrace,
            if_neg hp, hf, updateServiceLocalToClusterTrace, if_neg hc2,
            Op.isUpdateService]
          decide
    · by_cases hc2 : oldSvc.externalTrafficPolicy = serviceExternalTrafficPolicyTypeLocal ∧
          newSvc.externalTrafficPolicy = serviceExternalTrafficPolicyTypeCluster
      · by_cases hp : oldSvc.healthCheckNodePort ≠ 0
        · simp only [opTrace, updateServiceTrace, if_neg hc1,
            updateServiceLocalToClusterTrace, if_pos hc2, deleteServiceTrace,
            if_pos hp, Op.isUpdateService]
          decide
        · simp only [opTrace, updateServiceTrace, if_neg hc1,
            updateServiceLocalToClusterTrace, if_pos hc2, deleteServiceTrace,
            if_neg hp, Op.isUpdateService]
          decide
      · simp only [opTrace, updateServiceTrace, if_neg hc1,
          updateServiceLocalToClusterTrace, if_neg hc2, Op.isUpdateService]
        decide

/-- C9 witness: the amended discipline at the double-acquisition
input. -/
theorem lock_discipline_amended_witness :
    effectsLockedFrom 0
        (opTrace envOk lbc0 (Op.updateService svcCluster svcLocal)) = true ∧
    lockCount (opTrace envOk lbc0 (Op.updateService svcCluster svcLocal)) ≤ 2 :=
  ⟨(lock_discipline_amended envOk lbc0 (Op.updateService svcCluster svcLocal)).1,
   (lock_discipline_amended envOk lbc0 (Op.updateService svcCluster svcLocal)).2.1⟩

/-- C8: every request whose command key is missing or unrecognized gets
status 400 with a body bearing the "unexpected or missing CNI_COMMAND"
prefix (exhibited as a decomposition `prefix ++ rest`); a request with
a recognized non-Delete command and a valid container-ID but no
network-namespace key gets 400 with the "missing CNI_NETNS" prefix;
and a request with a recognized command, a valid container-ID, the
namespace requirement satisfied, but no arguments key gets 400 with
the "missing CNI_ARGS" prefix. -/
theorem cni_validation_error_prefixes :
    (∀ (handler : PodRequest → Except String String) (req : CNIRequest),
      (lookupEnv req.env "CNI_COMMAND").bind parseCNICommand = none →
      (serveCNIRequest handler req).1 = 400 ∧
      ∃ rest, (serveCNIRequest handler req).2
        = "unexpected or missing CNI_COMMAND" ++ rest) ∧
    (∀ (handler : PodRequest → Except String String) (req : CNIRequest)
        (cmd : CNICommand) (cid : String),
      (lookupEnv req.env "CNI_COMMAND").bind parseCNICommand = some cmd →
      cmd ≠ CNICommand.delete →
      lookupEnv req.env "CNI_CONTAINERID" = some cid →
      cid ≠ "" →
      lookupEnv req.env "CNI_NETNS" = none →
      (serveCNIRequest handler req).1 = 400 ∧
      ∃ rest, (serveCNIRequest handler req).2 = "missing CNI_NETNS" ++ rest) ∧
    (∀ (handler : PodRequest → Except String String) (req : CNIRequest)
        (cmd : CNICommand) (cid : String),
      (lookupEnv req.env "CNI_COMMAND").bind parseCNICommand = some cmd →
      lookupEnv req.env "CNI_CONTAINERID" = some cid →
      cid ≠ "" →
      (cmd = CNICommand.delete ∨ (lookupEnv req.env "CNI_NETNS").isSome = true) →
      lookupEnv req.env "CNI_ARGS" = none →
      (serveCNIRequest handler req).1 = 400 ∧
      ∃ rest, (serveCNIRequest handler req).2 = "missing CNI_ARGS" ++ rest) := by
  refine ⟨?_, ?_, ?_⟩
  · intro handler req hcmd
    simp only [serveCNIRequest, cniRequestToPodRequest, hcmd]
    exact ⟨by simp, "", by simp⟩
  · intro handler req cmd cid hcmd hdel hcid hne hnet
    simp only [serveCNIRequest, cniRequestToPodRequest, hcmd, hcid, hnet]
    rw [if_neg hne, if_neg hdel]
    exact ⟨by simp, "", by simp⟩
  · intro handler req cmd cid hcmd hcid hne hnetok hargs
    simp only [serveCNIRequest, cniRequestToPodRequest, hcmd, hcid, hargs]
    rw [if_neg hne]
    rcases hnetok with hdel | hnet
    · rw [if_pos hdel]
      exact ⟨by simp, "", by simp⟩
    · obtain ⟨np, hnp⟩ := Option.isSome_iff_exists.mp hnet
      by_cases hd : cmd = CNICommand.delete
      · rw [if_pos hd]
        exact ⟨by simp, "", by simp⟩
      · rw [if_neg hd]
        simp only [hnp]
        exact ⟨by simp, "", by simp⟩

/-- A fixture handler that accepts every pod request. -/
def handlerOk : PodRequest → Except String String := fun _ => Except.ok ""

/-- A fixture request with no command key. -/
def reqMissingCommand : CNIRequest :=
  { env := [("CNI_CONTAINERID", "adsf"), ("CNI_NETNS", "/path/to/something"),
      ("CNI_ARGS", "K8S_POD_NAMESPACE=awesome-namespace;K8S_POD_NAME=awesome-name")],
    config := "" }

/-- A fixture ADD request with no network-namespace key. -/
def reqMissingNetns : CNIRequest :=
  { env := [("CNI_COMMAND", "ADD"), ("CNI_CONTAINERID", "adsf"),
      ("CNI_ARGS", "K8S_POD_NAMESPACE=awesome-namespace;K8S_POD_NAME=awesome-name")],
    config := "" }

/-- A fixture ADD request with no arguments key. -/
def reqMissingArgs : CNIRequest :=
  { env := [("CNI_COMMAND", "ADD"), ("CNI_CONTAINERID", "adsf"),
      ("CNI_NETNS", "/path/to/something")],
    config := "" }

/-- C8 witness: the three failure classes at the test's concrete
requests. -/
theorem cni_validation_error_prefixes_witness :
    (serveCNIRequest handlerOk reqMissingCommand).1 = 400 ∧
    (serveCNIRequest handlerOk reqMissingNetns).1 = 400 ∧
    (∃ rest, (serveCNIRequest handlerOk reqMissingNetns).2
      = "missing CNI_NETNS" ++ rest) ∧
    (serveCNIRequest handlerOk reqMissingArgs).1 = 400 ∧
    (∃ rest, (serveCNIRequest handlerOk reqMissingArgs).2
      = "missing CNI_ARGS" ++ rest) := by
  have h1 := (cni_validation_error_prefixes.1 handlerOk reqMissingCommand (by rfl)).1
  have h2 := cni_validation_error_prefixes.2.1 handlerOk reqMissingNetns
    CNICommand.add "adsf" (by rfl) (by decide) (by rfl) (by decide) (by rfl)
  have h3 := cni_validation_error_prefixes.2.2 handlerOk reqMissingArgs
    CNICommand.add "adsf" (by rfl) (by rfl) (by decide) (Or.inr (by rfl)) (by rfl)
  exact ⟨h1, h2.1, h2.2, h3.1, h3.2⟩
